import Mathlib

/-
Verification of the neural-network layer components in
`src/redo/src/network_components.py` (spectral normalization, self-attention,
residual block, instance normalization).

Modelling conventions (shallow embedding of the TensorFlow code over ℝ):
* A 4-D tensor (batch, height, width, channels) is a `Tens`: explicit shape
  data together with a total value function `ℕ → ℕ → ℕ → ℕ → ℝ`.  Entries
  outside the shape are irrelevant junk; TensorFlow broadcasting is not
  modelled (operands of elementwise binary operations are assumed
  shape-compatible, as on every valid input).
* A 3-D tensor (batch, rows, cols) is a `Tens3`, a 2-D matrix a plain
  function `ℕ → ℕ → ℝ` with its dimensions passed explicitly.
* `x ** 0.5` on a nonnegative float is `Real.sqrt`; `tf.exp` is `Real.exp`.
* Random initializers (`tf.random_normal_initializer`, `orthogonal(gain)`)
  are modelled as explicit parameters holding the value the draw produced;
  deterministic initializers (`tf.zeros_initializer`, `tf.ones_initializer`)
  are modelled by their values.
* Keras layers hold mutable state, so each layer is a structure and each
  `call` returns the output together with the updated structure.
-/

noncomputable section

/-- Epsilon constant used by the source (`1e-12`, in `normalize_l2` and
`InstanceNormalization.__init__`). -/
def epsilon : ℝ := 1 / 10 ^ 12

/-- A 4-D tensor in batch–height–width–channels layout: shape data plus a
total value function. -/
structure Tens where
  n : ℕ
  h : ℕ
  w : ℕ
  c : ℕ
  val : ℕ → ℕ → ℕ → ℕ → ℝ

/-- A 3-D tensor (batch, rows, cols). -/
structure Tens3 where
  n : ℕ
  p : ℕ
  q : ℕ
  val : ℕ → ℕ → ℕ → ℝ

/-- Shape tuple of a 4-D tensor, as compared by `h.shape != x.shape` in
`ResidualBlock.call` (TensorShape equality on known dimensions is exact
integer tuple equality). -/
def shapeOf (t : Tens) : ℕ × ℕ × ℕ × ℕ := (t.n, t.h, t.w, t.c)

/-- Elementwise sum of two tensors; the result carries the right operand's
shape (the operands agree on every valid input). -/
def Tens.add (a b : Tens) : Tens :=
  ⟨b.n, b.h, b.w, b.c, fun bi i j k => a.val bi i j k + b.val bi i j k⟩

/-- Scalar multiple of a tensor (`gamma * o`). -/
def Tens.smul (r : ℝ) (a : Tens) : Tens :=
  ⟨a.n, a.h, a.w, a.c, fun bi i j k => r * a.val bi i j k⟩

/-- Rectified linear unit, `tf.keras.layers.ReLU`. -/
def reluT (t : Tens) : Tens :=
  ⟨t.n, t.h, t.w, t.c, fun bi i j k => max (t.val bi i j k) 0⟩

/-- 2×2 max pooling with stride 2 and valid padding
(`MaxPool2D(pool_size=(2, 2))`). -/
def maxPool2 (t : Tens) : Tens :=
  ⟨t.n, t.h / 2, t.w / 2, t.c, fun bi i j k =>
    max (max (t.val bi (2 * i) (2 * j) k) (t.val bi (2 * i) (2 * j + 1) k))
        (max (t.val bi (2 * i + 1) (2 * j) k) (t.val bi (2 * i + 1) (2 * j + 1) k))⟩

/-- 2×2 average pooling with stride 2 and valid padding
(`AveragePooling2D(pool_size=(2, 2))`). -/
def avgPool2 (t : Tens) : Tens :=
  ⟨t.n, t.h / 2, t.w / 2, t.c, fun bi i j k =>
    (t.val bi (2 * i) (2 * j) k + t.val bi (2 * i) (2 * j + 1) k +
     t.val bi (2 * i + 1) (2 * j) k + t.val bi (2 * i + 1) (2 * j + 1) k) / 4⟩

/-- Reshape a 4-D tensor to 3-D, `tf.reshape(t, [-1, P, Q])`.  The source
grid of `t` is flattened row-major over (height, width); valid exactly when
`P * Q = t.h * t.w * t.c` with `Q = t.c`.  This total function models only
the successful reshape; the TensorFlow call raises `InvalidArgumentError`
when the `-1` entry cannot be inferred (see `reshapeNeg1Ok`), and where a
claim depends on that error path the precondition is stated explicitly. -/
def reshape4to3 (t : Tens) (P Q : ℕ) : Tens3 :=
  ⟨t.n, P, Q, fun bi p k => t.val bi (p / t.w) (p % t.w) k⟩

/-- Success precondition of `tf.reshape(t, [rows, -1])` (and of any reshape
with one `-1` entry, `rows` standing for the product of the specified
sizes): TensorFlow infers the `-1` size as `numel / rows` and raises
`InvalidArgumentError` when `rows = 0` — for an empty tensor the missing
size cannot be inferred unless all specified input sizes are non-zero — or
when `rows` does not divide `numel`. -/
def reshapeNeg1Ok (numel rows : ℕ) : Prop := rows ≠ 0 ∧ rows ∣ numel

/-- Reshape a 3-D tensor to 4-D, `tf.reshape(t, [-1, H, W, C])`. -/
def reshape3to4 (t : Tens3) (H W C : ℕ) : Tens :=
  ⟨t.n, H, W, C, fun bi i j k => t.val bi (i * W + j) k⟩

/-- Batched matrix product with the second operand transposed,
`tf.matmul(a, b, transpose_b=True)`: entry (bi, p, q) is the inner product
of row p of `a` with row q of `b` over `a`'s column count. -/
def matmulT3 (a b : Tens3) : Tens3 :=
  ⟨a.n, a.p, b.p, fun bi p q => ∑ k ∈ Finset.range a.q, a.val bi p k * b.val bi q k⟩

/-- Batched matrix product `tf.matmul(a, b)`. -/
def matmul3 (a b : Tens3) : Tens3 :=
  ⟨a.n, a.p, b.q, fun bi p r => ∑ k ∈ Finset.range a.q, a.val bi p k * b.val bi k r⟩

/-- Softmax over the last axis of a 3-D tensor, `Softmax(axis=2)`. -/
def softmax2 (t : Tens3) : Tens3 :=
  ⟨t.n, t.p, t.q, fun bi p q =>
    Real.exp (t.val bi p q) / ∑ r ∈ Finset.range t.q, Real.exp (t.val bi p r)⟩

/-- Keras `Conv2D` layer: configuration, build status, and the variables a
built layer holds.  `cin`, `kernel` and `bias` are meaningful only once
`built` is true; `kernelOrig` is the extra `kernel_orig` variable that
`SpectralNormalization.call` adds on its first pass. -/
structure Conv2D where
  filters : ℕ
  kh : ℕ
  kw : ℕ
  sh : ℕ
  sw : ℕ
  same : Bool
  useBias : Bool
  kernelInit : ℕ → ℕ → ℕ → ℕ → ℝ
  built : Bool
  cin : ℕ
  kernel : Option (ℕ → ℕ → ℕ → ℕ → ℝ)
  kernelOrig : Option (ℕ → ℕ → ℕ → ℕ → ℝ)
  bias : Option (ℕ → ℝ)

/-- A fresh (unbuilt) `Conv2D` as produced by the Keras constructor. -/
def mkConv2D (filters kh kw sh sw : ℕ) (same useBias : Bool)
    (kernelInit : ℕ → ℕ → ℕ → ℕ → ℝ) : Conv2D :=
  ⟨filters, kh, kw, sh, sw, same, useBias, kernelInit, false, 0, none, none, none⟩

/-- Build step of a Keras layer on first call: record the input channel
count, create the kernel from its initializer and the bias (zeros) when
`use_bias`; a second build is a no-op. -/
def Conv2D.build (c : Conv2D) (cin : ℕ) : Conv2D :=
  if c.built then c
  else
    { c with built := true, cin := cin, kernel := some c.kernelInit,
             bias := if c.useBias then some (fun _ => 0) else none }

/-- Output height of the convolution (TensorFlow size rule: `ceil(h / s)` for
same padding, `floor((h - kh) / s) + 1` for valid). -/
def Conv2D.outH (c : Conv2D) (h : ℕ) : ℕ :=
  if c.same then (h + c.sh - 1) / c.sh else (h - c.kh) / c.sh + 1

/-- Output width of the convolution. -/
def Conv2D.outW (c : Conv2D) (w : ℕ) : ℕ :=
  if c.same then (w + c.sw - 1) / c.sw else (w - c.kw) / c.sw + 1

/-- Zero-padded read of a spatial position (positions outside the tensor's
height/width read 0). -/
def padRead (t : Tens) (bi : ℕ) (i j : ℤ) (k : ℕ) : ℝ :=
  if 0 ≤ i ∧ i < (t.h : ℤ) ∧ 0 ≤ j ∧ j < (t.w : ℤ) then t.val bi i.toNat j.toNat k
  else 0

/-- Top padding of a same-padded convolution along one spatial axis
(TensorFlow puts `pad_total / 2` before, the remainder after). -/
def samePadBefore (size kernel stride out : ℕ) : ℤ :=
  max (((out : ℤ) - 1) * stride + kernel - size) 0 / 2

/-- Forward computation of a built `Conv2D` on input `x`: cross-correlation
of the kernel with the (possibly same-padded) input plus the bias. -/
def Conv2D.forward (c : Conv2D) (x : Tens) : Tens :=
  let K := c.kernel.getD (fun _ _ _ _ => 0)
  let padT : ℤ := if c.same then samePadBefore x.h c.kh c.sh (c.outH x.h) else 0
  let padL : ℤ := if c.same then samePadBefore x.w c.kw c.sw (c.outW x.w) else 0
  ⟨x.n, c.outH x.h, c.outW x.w, c.filters, fun bi i j f =>
    (∑ di ∈ Finset.range c.kh, ∑ dj ∈ Finset.range c.kw, ∑ ci ∈ Finset.range c.cin,
      padRead x bi ((i : ℤ) * c.sh + di - padT) ((j : ℤ) * c.sw + dj - padL) ci *
        K di dj ci f) +
    (c.bias.elim 0 fun bv => bv f)⟩

/-- Calling a Keras `Conv2D` layer: build on first use, then run the forward
computation; returns the output and the (possibly built) layer. -/
def Conv2D.callLayer (c : Conv2D) (x : Tens) : Tens × Conv2D :=
  let c1 := c.build x.c
  (c1.forward x, c1)

/-- State of a `SpectralNormalization` wrapper
(`network_components.py:19-44`): the wrapped `Conv2D`, the configured
`n_power_iterations`, the one-shot `init` flag, and the persisted singular
vector estimate `u` (shape `[layer.filters, 1]`). -/
structure SpectralNormalization where
  layer : Conv2D
  n_power_iterations : ℕ
  init : Bool
  u : ℕ → ℕ → ℝ

/-- Constructor `SpectralNormalization.__init__`: stores the layer and the
iteration count, sets `init` to false, and creates `u` immediately via
`add_weight` with a random-normal draw (`u0` models that draw). -/
def mkSpectralNormalization (layer : Conv2D) (n_power_iterations : ℕ)
    (u0 : ℕ → ℕ → ℝ) : SpectralNormalization :=
  ⟨layer, n_power_iterations, false, u0⟩

/-- `SpectralNormalization.normalize_l2` (`network_components.py:146-157`):
`v / (tf.math.reduce_sum(v**2)**0.5 + epsilon)`, the sum running over the
whole `m × n` matrix (the sum of squares is nonnegative, so `** 0.5` is
`Real.sqrt`). -/
def normalize_l2 (m n : ℕ) (v : ℕ → ℕ → ℝ) (eps : ℝ) : ℕ → ℕ → ℝ :=
  fun i j =>
    v i j / (Real.sqrt (∑ a ∈ Finset.range m, ∑ b ∈ Finset.range n, v a b ^ 2) + eps)

/-- Body of one pass of the `for` loop in
`SpectralNormalization.power_iteration` (`network_components.py:138-141`),
for a reshaped kernel `W` of shape `[filters, N]` and the persisted vector
`selfU` (shape `[filters, 1]`):
`v = normalize_l2(Wᵀ · self.u)`, `u = normalize_l2(W · v)`,
`spectral_norm = uᵀ · W · v` (a 1×1 matrix, kept as a scalar). -/
def piStep (filters N : ℕ) (W selfU : ℕ → ℕ → ℝ) : ℝ × (ℕ → ℕ → ℝ) :=
  let v := normalize_l2 N 1
    (fun i j => ∑ l ∈ Finset.range filters, W l i * selfU l j) epsilon
  let u := normalize_l2 filters 1
    (fun i j => ∑ l ∈ Finset.range N, W i l * v l j) epsilon
  (∑ l ∈ Finset.range N, (∑ k ∈ Finset.range filters, u k 0 * W k l) * v l 0, u)

/-- One iteration of the source's loop as a state transformer on the loop's
local variables: every pass recomputes `v`, `u` and `spectral_norm` from the
persisted `self.u` (not from the previous pass), so it discards the
accumulator. -/
def piLoopBody (filters N : ℕ) (selfU W : ℕ → ℕ → ℝ) :
    Option (ℝ × (ℕ → ℕ → ℝ)) → Option (ℝ × (ℕ → ℕ → ℝ)) :=
  fun _prev => some (piStep filters N W selfU)

/-- `SpectralNormalization.power_iteration` (`network_components.py:125-143`):
runs the loop body `n_power_iterations` times starting from unbound locals
(`none`; with zero iterations Python would raise `UnboundLocalError` on the
`return`, modelled as `none`). -/
def power_iteration (filters N n_power_iterations : ℕ)
    (selfU W : ℕ → ℕ → ℝ) : Option (ℝ × (ℕ → ℕ → ℝ)) :=
  (piLoopBody filters N selfU W)^[n_power_iterations] none

/-- Row-major reshape of the 4-D kernel `[kh, kw, cin, filters]` to the 2-D
matrix `[filters, kh * kw * cin]`, exactly as `tf.reshape(W_orig,
[filters, -1])` flattens it: entry (r, c) reads flat index
`r * (kh * kw * cin) + c` of the row-major enumeration.  This total
function models only the successful reshape: the TensorFlow call raises
`InvalidArgumentError` when the `-1` entry cannot be inferred
(`reshapeNeg1Ok` fails, e.g. `filters = 0` on an empty kernel). -/
def reshapeKernel (kh kw cin filters : ℕ) (K : ℕ → ℕ → ℕ → ℕ → ℝ) :
    ℕ → ℕ → ℝ :=
  fun r c =>
    let t := r * (kh * kw * cin) + c
    K (t / (filters * cin * kw)) (t / (filters * cin) % kw) (t / filters % cin)
      (t % filters)

/-- Reshaped kernel `W_res` of an instance, read from `kernel_orig` (the
source accesses the attribute directly; it exists once `call` has run, the
`getD` default stands for the Python `AttributeError` state). -/
def snWres (s : SpectralNormalization) : ℕ → ℕ → ℝ :=
  reshapeKernel s.layer.kh s.layer.kw s.layer.cin s.layer.filters
    (s.layer.kernelOrig.getD (fun _ _ _ _ => 0))

/-- Number of elements of the wrapped layer's kernel (shape
`[kh, kw, cin, filters]`): `tf.reshape(W_orig, [filters, -1])` must infer
the `-1` entry as this count divided by `filters`, so the reshape succeeds
only when `reshapeNeg1Ok (snWresNumel s) s.layer.filters` holds. -/
def snWresNumel (s : SpectralNormalization) : ℕ :=
  s.layer.kh * s.layer.kw * s.layer.cin * s.layer.filters

/-- Power iteration of an instance on its own reshaped kernel, with
`filters` read from the kernel shape's last entry and `N` the flattened
remainder. -/
def snPower (s : SpectralNormalization) : Option (ℝ × (ℕ → ℕ → ℝ)) :=
  power_iteration s.layer.filters (s.layer.kh * s.layer.kw * s.layer.cin)
    s.n_power_iterations s.u (snWres s)

/-- `SpectralNormalization.normalize_weights`
(`network_components.py:93-122`): reshape `kernel_orig`, run the power
iteration, divide `kernel_orig` elementwise by the scalar `spectral_norm`,
and assign the new `u` to `self.u` only when `training`.  Returns the
normalized kernel and the updated instance.  (The `none` branch is the
`n_power_iterations = 0` crash state.) -/
def normalize_weights (s : SpectralNormalization) (training : Bool) :
    (ℕ → ℕ → ℕ → ℕ → ℝ) × SpectralNormalization :=
  let Worig := s.layer.kernelOrig.getD (fun _ _ _ _ => 0)
  match snPower s with
  | none => ((fun _ _ _ _ => 0), s)
  | some su =>
      ((fun i j k l => Worig i j k l / su.1),
       if training then { s with u := su.2 } else s)

/-- First-pass initialization inside `SpectralNormalization.call`
(`network_components.py:56-77`): run the wrapped layer once on `x` to build
it, then introduce `kernel_orig` holding a copy of the freshly initialized
kernel (`set_weights([w0, w0])`, or `[w0, b, w0]` with a bias, leaves the
kernel and the bias themselves unchanged), and flip the `init` flag. -/
def snFirstInit (s : SpectralNormalization) (x : Tens) : SpectralNormalization :=
  let l1 := (s.layer.callLayer x).2
  { s with layer := { l1 with kernelOrig := l1.kernel }, init := true }

/-- Post-initialization part of `SpectralNormalization.call`
(`network_components.py:79-90`): compute the normalized weights, assign
them to `self.layer.kernel` as a plain tensor, and run the wrapped layer's
forward pass; the returned wrapper keeps the state `normalize_weights`
produced, with the kernel assignment applied. -/
def snCallAfterInit (s1 : SpectralNormalization) (x : Tens) (training : Bool) :
    Tens × SpectralNormalization :=
  ((Conv2D.callLayer { (normalize_weights s1 training).2.layer with
      kernel := some (normalize_weights s1 training).1 } x).1,
   { (normalize_weights s1 training).2 with
      layer := (Conv2D.callLayer { (normalize_weights s1 training).2.layer with
        kernel := some (normalize_weights s1 training).1 } x).2 })

/-- `SpectralNormalization.call` (`network_components.py:46-90`): on the
first pass (guarded by the `init` flag) build the wrapped layer and
introduce `kernel_orig`; on every pass normalize the weights, assign them
to the kernel and run the wrapped layer. -/
def SpectralNormalization.call (s : SpectralNormalization) (x : Tens)
    (training : Bool) : Tens × SpectralNormalization :=
  snCallAfterInit (if s.init then s else snFirstInit s x) x training

/-- State of a `SelfAttentionModule` (`network_components.py:160-199`): the
key size, the gate scalar `gamma`, and four spectrally normalized 1×1
convolutions `f`, `g`, `h`, `out`. -/
structure SelfAttentionModule where
  key_size : ℕ
  gamma : ℝ
  f : SpectralNormalization
  g : SpectralNormalization
  h : SpectralNormalization
  out : SpectralNormalization

/-- Constructor `SelfAttentionModule.__init__`: `key_size` defaults to
`output_channels // 8` when omitted; `gamma` is created with
`tf.zeros_initializer`, hence 0; the four projections are bias-free 1×1
convolutions (orthogonal initializer draws `kf`, `kg`, `kh0`, `ko`; the `u`
draws of their wrappers `uf`, `ug`, `uh0`, `uo`) with `key_size`,
`key_size`, `output_channels // 2` and `output_channels` filters.  The
source performs no validation of any argument. -/
def mkSelfAttentionModule (_init_gain : ℝ) (output_channels : ℕ)
    (key_size : Option ℕ) (kf kg kh0 ko : ℕ → ℕ → ℕ → ℕ → ℝ)
    (uf ug uh0 uo : ℕ → ℕ → ℝ) : SelfAttentionModule :=
  let ks := match key_size with
    | none => output_channels / 8
    | some k => k
  { key_size := ks
    gamma := 0
    f := mkSpectralNormalization (mkConv2D ks 1 1 1 1 false false kf) 1 uf
    g := mkSpectralNormalization (mkConv2D ks 1 1 1 1 false false kg) 1 ug
    h := mkSpectralNormalization
      (mkConv2D (output_channels / 2) 1 1 1 1 false false kh0) 1 uh0
    out := mkSpectralNormalization
      (mkConv2D output_channels 1 1 1 1 false false ko) 1 uo }

/-- `SelfAttentionModule.compute_attention` (`network_components.py:214-245`):
with `h, w, c = x.shape[1:]`, compute `fx = reshape(f(x), [-1, h*w, ks])`,
down-sample `g(x)` and `h(x)` by 2×2 max pooling, form the similarity
matrix `s = fx · gxᵀ`, its row softmax `beta`, the value mix
`interim = beta · hx` reshaped back to `[-1, h, w, c/2]`, and project with
`out`.  Each wrapped convolution's state is threaded through. -/
def SelfAttentionModule.compute_attention (m : SelfAttentionModule) (x : Tens)
    (training : Bool) : Tens × SelfAttentionModule :=
  let rf := m.f.call x training
  let fx := reshape4to3 rf.1 (x.h * x.w) m.key_size
  let rg := m.g.call x training
  let gx := reshape4to3 (maxPool2 rg.1) ((x.h * x.w) / 4) m.key_size
  let sMat := matmulT3 fx gx
  let beta := softmax2 sMat
  let rh := m.h.call x training
  let hx := reshape4to3 (maxPool2 rh.1) ((x.h * x.w) / 4) (x.c / 2)
  let interim := reshape3to4 (matmul3 beta hx) x.h x.w (x.c / 2)
  let ro := m.out.call interim training
  (ro.1, { m with f := rf.2, g := rg.2, h := rh.2, out := ro.2 })

/-- `SelfAttentionModule.call` (`network_components.py:202-211`):
`y = gamma * compute_attention(x, training) + x`. -/
def SelfAttentionModule.call (m : SelfAttentionModule) (x : Tens)
    (training : Bool) : Tens × SelfAttentionModule :=
  let r := m.compute_attention x training
  (Tens.add (Tens.smul m.gamma r.1) x, r.2)

/-- State of a `ResidualBlock` (`network_components.py:248-287`): the two
flags and the three spectrally normalized convolutions (the 2×2 average
pooling layer is stateless). -/
structure ResidualBlock where
  first_block : Bool
  last_block : Bool
  process_identity : SpectralNormalization
  conv_1 : SpectralNormalization
  conv_2 : SpectralNormalization

/-- Constructor `ResidualBlock.__init__`: `process_identity` is a strided
1×1 convolution (valid padding, default bias), `conv_1` a strided 3×3
same-padded convolution, `conv_2` an unstrided 3×3 same-padded convolution,
all with `output_channels` filters and wrapped in `SpectralNormalization`
(orthogonal draws `kid`, `k1`, `k2`; wrapper `u` draws `uid`, `u1`, `u2`). -/
def mkResidualBlock (_init_gain : ℝ) (sh sw output_channels : ℕ)
    (first_block last_block : Bool) (kid k1 k2 : ℕ → ℕ → ℕ → ℕ → ℝ)
    (uid u1 u2 : ℕ → ℕ → ℝ) : ResidualBlock :=
  { first_block := first_block
    last_block := last_block
    process_identity := mkSpectralNormalization
      (mkConv2D output_channels 1 1 sh sw false true kid) 1 uid
    conv_1 := mkSpectralNormalization
      (mkConv2D output_channels 3 3 sh sw true true k1) 1 u1
    conv_2 := mkSpectralNormalization
      (mkConv2D output_channels 3 3 1 1 true true k2) 1 u2 }

/-- Residual pipeline of `ResidualBlock.call` (`network_components.py:299-308`):
pre-activation unless `first_block`, `conv_1`, ReLU, `conv_2`, then 2×2
average pooling unless `last_block`.  Returns the pipeline output and the
updated states of `conv_1` and `conv_2`. -/
def ResidualBlock.pipeline (m : ResidualBlock) (x : Tens) (training : Bool) :
    Tens × SpectralNormalization × SpectralNormalization :=
  let h0 := if m.first_block then x else reluT x
  let r1 := m.conv_1.call h0 training
  let h2 := reluT r1.1
  let r2 := m.conv_2.call h2 training
  (if m.last_block then r2.1 else avgPool2 r2.1, r1.2, r2.2)

/-- `ResidualBlock.call` (`network_components.py:290-321`): run the pipeline;
if the pipeline output's shape differs from `x`'s shape, down-sample the
identity by the same pooling (unless `last_block`) and pass it through
`process_identity`; return identity plus pipeline output (`x += h`). -/
def ResidualBlock.call (m : ResidualBlock) (x : Tens) (training : Bool) :
    Tens × ResidualBlock :=
  let p := m.pipeline x training
  if shapeOf p.1 ≠ shapeOf x then
    let x1 := if m.last_block then x else avgPool2 x
    let r3 := m.process_identity.call x1 training
    (Tens.add r3.1 p.1,
     { m with process_identity := r3.2, conv_1 := p.2.1, conv_2 := p.2.2 })
  else
    (Tens.add x p.1, { m with conv_1 := p.2.1, conv_2 := p.2.2 })

/-- State of an `InstanceNormalization` layer
(`network_components.py:324-339`): the `affine` flag, the stored `eps`, the
channel count, and the affine parameters, present only when `affine`. -/
structure InstanceNormalization where
  affine : Bool
  eps : ℝ
  filters : ℕ
  gamma : Option (ℕ → ℝ)
  beta : Option (ℕ → ℝ)

/-- Constructor `InstanceNormalization.__init__`: stores `affine`, sets
`eps = 1e-12`, and when `affine` creates `gamma` (shape `[1, filters]`,
`tf.ones_initializer`) and `beta` (`tf.zeros_initializer`). -/
def mkInstanceNormalization (filters : ℕ) (affine : Bool) :
    InstanceNormalization :=
  ⟨affine, epsilon, filters,
   if affine then some (fun _ => 1) else none,
   if affine then some (fun _ => 0) else none⟩

/-- Spatial mean of entry (bi, cc): `tf.math.reduce_mean(x, axis=(1, 2))`
read per (batch element, channel) pair. -/
def spatialMean (x : Tens) (bi cc : ℕ) : ℝ :=
  (∑ i ∈ Finset.range x.h, ∑ j ∈ Finset.range x.w, x.val bi i j cc) /
    ((x.h * x.w : ℕ) : ℝ)

/-- Spatial standard deviation of entry (bi, cc):
`tf.math.reduce_std(x, axis=(1, 2))`, the population standard deviation
(square root of the mean squared deviation). -/
def spatialStd (x : Tens) (bi cc : ℕ) : ℝ :=
  Real.sqrt ((∑ i ∈ Finset.range x.h, ∑ j ∈ Finset.range x.w,
    (x.val bi i j cc - spatialMean x bi cc) ^ 2) / ((x.h * x.w : ℕ) : ℝ))

/-- One normalized entry, `(x - mean) / (std + eps)`. -/
def instNormCore (x : Tens) (eps : ℝ) (bi i j cc : ℕ) : ℝ :=
  (x.val bi i j cc - spatialMean x bi cc) / (spatialStd x bi cc + eps)

/-- `InstanceNormalization.call` (`network_components.py:342-368`): mean and
standard deviation over the two spatial axes, per (batch element, channel)
pair; normalize as `(x - mean) / (std + eps)`; when `affine`, scale by
`gamma` and shift by `beta`, broadcast across the spatial axes
(`gamma`/`beta` are read by plain attribute access; the `getD` defaults
stand for the impossible missing-attribute state). -/
def InstanceNormalization.call (m : InstanceNormalization) (x : Tens) : Tens :=
  if m.affine then
    ⟨x.n, x.h, x.w, x.c, fun bi i j cc =>
      instNormCore x m.eps bi i j cc * (m.gamma.getD (fun _ => 1)) cc +
        (m.beta.getD (fun _ => 0)) cc⟩
  else ⟨x.n, x.h, x.w, x.c, fun bi i j cc => instNormCore x m.eps bi i j cc⟩

/-- Instance normalization written from the spec's words ("per-sample,
per-channel normalization over the two spatial axes: `(x - mean)/(std +
eps)`, `eps = 1e-12`; mean and std computed independently for each (batch
element, channel) pair across height and width. If `affine` is true, scale
by a learned per-channel vector `gamma` and shift by a learned per-channel
vector `beta`, broadcast across the spatial axes"). -/
def instance_norm_spec (affine : Bool) (g bta : ℕ → ℝ) (x : Tens) : Tens :=
  ⟨x.n, x.h, x.w, x.c, fun bi i j cc =>
    if affine then g cc * instNormCore x epsilon bi i j cc + bta cc
    else instNormCore x epsilon bi i j cc⟩

/-- Constant kernel-initializer draw used in concrete instances. -/
def oneK : ℕ → ℕ → ℕ → ℕ → ℝ := fun _ _ _ _ => 1

/-- Constant `u`-initializer draw used in concrete instances. -/
def oneU : ℕ → ℕ → ℝ := fun _ _ => 1

/-- Concrete 2×2 weight matrix `diag(2, 1)` (largest singular value 2). -/
def WC1 : ℕ → ℕ → ℝ := fun i j =>
  if i = 0 ∧ j = 0 then 2 else if i = 1 ∧ j = 1 then 1 else 0

/-- Concrete persisted singular-vector estimate `[1, 1]ᵀ` (a generic start,
not orthogonal to the dominant singular vector of `WC1`). -/
def uC1 : ℕ → ℕ → ℝ := fun _ _ => 1

/-- Concrete `SpectralNormalization` instance with `n_power_iterations = 5`. -/
def snC2 : SpectralNormalization :=
  mkSpectralNormalization (mkConv2D 2 1 1 1 1 false false oneK) 5 oneU

/-- Concrete freshly constructed `SpectralNormalization` instance
(`n_power_iterations = 1`). -/
def snC3 : SpectralNormalization :=
  mkSpectralNormalization (mkConv2D 1 1 1 1 1 false false oneK) 1 oneU

/-- The concrete power-iteration result of `snC3`. -/
def pC3 : ℝ × (ℕ → ℕ → ℝ) := (snPower snC3).getD (0, fun _ _ => 0)

/-- Concrete fresh `Conv2D` with 3 filters. -/
def convC5 : Conv2D := mkConv2D 3 1 1 1 1 false false oneK

/-- Concrete freshly constructed `SpectralNormalization` instance for the
inference-idempotence witness. -/
def snC4 : SpectralNormalization :=
  mkSpectralNormalization (mkConv2D 2 1 1 1 1 false false oneK) 1 oneU

/-- Concrete input tensor of shape 1×2×2×2. -/
def xC4 : Tens := ⟨1, 2, 2, 2, fun _ _ _ _ => 1⟩

/-- Concrete `SelfAttentionModule` with `output_channels = 8` and `key_size`
omitted. -/
def saC6 : SelfAttentionModule :=
  mkSelfAttentionModule 1 8 none oneK oneK oneK oneK oneU oneU oneU oneU

/-- Concrete input tensor of shape 1×2×2×8. -/
def xC6 : Tens := ⟨1, 2, 2, 8, fun _ _ _ _ => 1⟩

/-- Concrete `SelfAttentionModule` with `output_channels = 4` and `key_size`
omitted, so the default `output_channels // 8` applies. -/
def saC7 : SelfAttentionModule :=
  mkSelfAttentionModule 1 4 none oneK oneK oneK oneK oneU oneU oneU oneU

/-- Concrete input tensor of shape 1×2×2×4 (even spatial dimensions). -/
def xC7 : Tens := ⟨1, 2, 2, 4, fun _ _ _ _ => 1⟩

/-- Concrete `ResidualBlock` (stride 1, 4 output channels, neither first nor
last). -/
def rbC9 : ResidualBlock :=
  mkResidualBlock 1 1 1 4 false false oneK oneK oneK oneU oneU oneU

/-- Concrete input tensor of shape 1×4×4×2. -/
def xC9 : Tens := ⟨1, 4, 4, 2, fun _ _ _ _ => 1⟩

/-- Concrete affine `InstanceNormalization` instance with 3 channels. -/
def inC10 : InstanceNormalization := mkInstanceNormalization 3 true

/-- Concrete input tensor of shape 1×2×2×3. -/
def xC10 : Tens := ⟨1, 2, 2, 3, fun _ _ _ _ => 1⟩

/-- Running the source's power-iteration loop any positive number of times
yields the single-pass result: the body never reads the previous pass's
locals. -/
lemma power_iteration_of_pos (filters N n : ℕ) (u W : ℕ → ℕ → ℝ)
    (hn : 1 ≤ n) :
    power_iteration filters N n u W = some (piStep filters N W u) := by
  obtain ⟨m, rfl⟩ : ∃ m, n = m + 1 := ⟨n - 1, (Nat.succ_pred_eq_of_pos hn).symm⟩
  unfold power_iteration
  rw [Function.iterate_succ_apply']
  rfl

/-- C2: for every SpectralNormalization instance and every matrix W, the
pair (sigma, u) returned by power_iteration is the same for every
n_power_iterations ≥ 1 as it is for n_power_iterations = 1, because each
loop iteration recomputes v from the persisted self.u rather than from the
u produced by the previous iteration. -/
theorem power_iteration_count_independent (s : SpectralNormalization)
    (W : ℕ → ℕ → ℝ) (hn : 1 ≤ s.n_power_iterations) :
    power_iteration s.layer.filters (s.layer.kh * s.layer.kw * s.layer.cin)
        s.n_power_iterations s.u W =
      power_iteration s.layer.filters (s.layer.kh * s.layer.kw * s.layer.cin)
        1 s.u W := by
  rw [power_iteration_of_pos _ _ _ _ _ hn,
    power_iteration_of_pos _ _ _ _ _ (le_refl 1)]

/-- Witness for C2 at a concrete instance with `n_power_iterations = 5`. -/
theorem power_iteration_count_independent_witness :
    power_iteration snC2.layer.filters
        (snC2.layer.kh * snC2.layer.kw * snC2.layer.cin)
        snC2.n_power_iterations snC2.u WC1 =
      power_iteration snC2.layer.filters
        (snC2.layer.kh * snC2.layer.kw * snC2.layer.cin) 1 snC2.u WC1 :=
  power_iteration_count_independent snC2 WC1 (by decide)

/-- C1 (code bug): at the concrete non-zero matrix `W = diag(2, 1)` with
persisted `u = [1, 1]ᵀ`, twenty power iterations return exactly the same
(sigma, u) as one iteration — the loop body reads the persisted `self.u` on
every pass, so raising `n_power_iterations` can never drive sigma towards
the true largest singular value 2. -/
theorem power_iteration_twenty_equals_one_at_diag :
    power_iteration 2 2 20 uC1 WC1 = power_iteration 2 2 1 uC1 WC1 := by
  rw [power_iteration_of_pos 2 2 20 uC1 WC1 (by norm_num),
    power_iteration_of_pos 2 2 1 uC1 WC1 (le_refl 1)]

/-- C8: `normalize_l2` computes exactly `v / (sqrt (sum v²) + epsilon)` with
the epsilon added to the norm; on the all-zero matrix the output is the zero
matrix, and the guarded denominator is nonzero. -/
theorem normalize_l2_formula_and_zero_vector (m n : ℕ) (v : ℕ → ℕ → ℝ) :
    normalize_l2 m n v epsilon =
      (fun i j => v i j /
        (Real.sqrt (∑ a ∈ Finset.range m, ∑ b ∈ Finset.range n, v a b ^ 2) +
          epsilon)) ∧
    normalize_l2 m n (fun _ _ => 0) epsilon = (fun _ _ => (0 : ℝ)) ∧
    Real.sqrt (∑ _a ∈ Finset.range m, ∑ _b ∈ Finset.range n, ((0 : ℝ)) ^ 2) +
        epsilon ≠ 0 := by
  refine ⟨rfl, ?_, ?_⟩
  · funext i j
    simp [normalize_l2]
  · have h0 : (∑ _a ∈ Finset.range m, ∑ _b ∈ Finset.range n, ((0 : ℝ)) ^ 2) = 0 := by
      simp
    rw [h0, Real.sqrt_zero, zero_add]
    norm_num [epsilon]

/-- C5 counterexample: a freshly constructed SpectralNormalization instance
has performed no forward pass (its `init` flag is false and the wrapped
convolution has no kernel yet), yet `u` already holds the constructor's
random-normal draw — `u` is created eagerly in `__init__`, not lazily on
first use. -/
theorem u_created_before_first_forward_pass :
    (mkSpectralNormalization convC5 1 oneU).init = false ∧
    (mkSpectralNormalization convC5 1 oneU).layer.kernel = none ∧
    (mkSpectralNormalization convC5 1 oneU).u = oneU :=
  ⟨rfl, rfl, rfl⟩

/-- C5 amended: `u` is initialized once, eagerly, in the constructor (shape
`[layer.filters, 1]`, the configured output-channel count), at a point
where the `init` flag is still false and no forward pass has run. -/
theorem u_initialized_eagerly_in_constructor (layer : Conv2D) (np : ℕ)
    (u0 : ℕ → ℕ → ℝ) :
    (mkSpectralNormalization layer np u0).u = u0 ∧
    (mkSpectralNormalization layer np u0).init = false ∧
    (mkSpectralNormalization layer np u0).layer = layer :=
  ⟨rfl, rfl, rfl⟩

/-- C3: `normalize_weights` overwrites the persisted `u` with the newly
computed singular-vector estimate exactly when `training` is true, and
leaves the whole instance (in particular `u`) unchanged when `training` is
false. -/
theorem normalize_weights_updates_u_iff_training (s : SpectralNormalization)
    (p : ℝ × (ℕ → ℕ → ℝ)) (hp : snPower s = some p) :
    (normalize_weights s true).2 = { s with u := p.2 } ∧
    (normalize_weights s false).2 = s := by
  unfold normalize_weights
  rw [hp]
  exact ⟨rfl, rfl⟩

/-- Witness for C3 at a concrete instance. -/
theorem normalize_weights_updates_u_iff_training_witness :
    (normalize_weights snC3 true).2 = { snC3 with u := pC3.2 } ∧
    (normalize_weights snC3 false).2 = snC3 :=
  normalize_weights_updates_u_iff_training snC3 pC3 rfl

/-- C6: a SelfAttentionModule whose gate scalar gamma is 0 returns its input
exactly (`y = gamma * o + x = x`), for any input and either training mode. -/
theorem self_attention_gamma_zero_is_identity (m : SelfAttentionModule)
    (x : Tens) (training : Bool) (hg : m.gamma = 0) :
    (m.call x training).1 = x := by
  obtain ⟨n, h, w, c, v⟩ := x
  simp only [SelfAttentionModule.call, Tens.add, Tens.smul, hg, zero_mul,
    zero_add]

/-- Witness for C6 at a concrete module (gamma is 0 from the constructor)
and input. -/
theorem self_attention_gamma_zero_is_identity_witness :
    (saC6.call xC6 false).1 = xC6 :=
  self_attention_gamma_zero_is_identity saC6 xC6 false rfl

/-- C7 counterexample: constructing a SelfAttentionModule with key_size
omitted and output_channels = 4 flags nothing — construction completes with
key_size silently set to 4 // 8 = 0 and the query projection `f` configured
with zero filters; and the first call does not flag the configuration
either: once it initializes `f`, the reshape `tf.reshape(W_orig, [0, -1])`
inside `normalize_weights` violates TensorFlow's `-1`-inference
precondition (the kernel is empty and the specified size 0), so the call
aborts with an incidental `InvalidArgumentError`, not a
configuration/validation error. -/
theorem key_size_zero_not_flagged :
    saC7.key_size = 0 ∧ saC7.f.layer.filters = 0 ∧
    ¬ reshapeNeg1Ok (snWresNumel (snFirstInit saC7.f xC7))
        (snFirstInit saC7.f xC7).layer.filters := by
  refine ⟨rfl, rfl, ?_⟩
  intro hok
  exact hok.1 rfl

/-- C7 amended: with key_size omitted and output_channels < 8, no
configuration or validation error flags the degenerate configuration: the
constructor performs no validation and silently sets key_size to
output_channels // 8 = 0, creating zero-filter query/key projections, and
the first call's weight normalization then hits a reshape whose
`-1`-inference precondition is violated (specified size 0 on an empty
kernel), aborting with an incidental `InvalidArgumentError` rather than a
configuration/validation error. -/
theorem key_size_defaults_to_zero_when_small (g0 : ℝ) (oc : ℕ) (hoc : oc < 8)
    (kf kg kh0 ko : ℕ → ℕ → ℕ → ℕ → ℝ) (uf ug uh0 uo : ℕ → ℕ → ℝ)
    (x : Tens) :
    (mkSelfAttentionModule g0 oc none kf kg kh0 ko uf ug uh0 uo).key_size = 0 ∧
    (mkSelfAttentionModule g0 oc none kf kg kh0 ko uf ug uh0 uo).f.layer.filters
      = 0 ∧
    ¬ reshapeNeg1Ok
        (snWresNumel (snFirstInit
          (mkSelfAttentionModule g0 oc none kf kg kh0 ko uf ug uh0 uo).f x))
        (snFirstInit
          (mkSelfAttentionModule g0 oc none kf kg kh0 ko uf ug uh0 uo).f
            x).layer.filters := by
  have h : oc / 8 = 0 := Nat.div_eq_of_lt hoc
  refine ⟨h, h, ?_⟩
  intro hok
  apply hok.1
  show oc / 8 = 0
  exact h

/-- Witness for the amended C7 at output_channels = 4. -/
theorem key_size_defaults_to_zero_when_small_witness :
    (mkSelfAttentionModule 1 4 none oneK oneK oneK oneK oneU oneU oneU
      oneU).key_size = 0 ∧
    (mkSelfAttentionModule 1 4 none oneK oneK oneK oneK oneU oneU oneU
      oneU).f.layer.filters = 0 ∧
    ¬ reshapeNeg1Ok
        (snWresNumel (snFirstInit
          (mkSelfAttentionModule 1 4 none oneK oneK oneK oneK oneU oneU oneU
            oneU).f xC7))
        (snFirstInit
          (mkSelfAttentionModule 1 4 none oneK oneK oneK oneK oneU oneU oneU
            oneU).f xC7).layer.filters :=
  key_size_defaults_to_zero_when_small 1 4 (by norm_num) oneK oneK oneK oneK
    oneU oneU oneU oneU xC7

/-- A built layer stays built through `build`. -/
lemma build_of_built (c : Conv2D) (cin : ℕ) (h : c.built = true) :
    c.build cin = c := by
  unfold Conv2D.build
  rw [if_pos h]

/-- Building always leaves the layer built. -/
lemma build_built (c : Conv2D) (cin : ℕ) : (c.build cin).built = true := by
  cases hc : c.built <;> simp [Conv2D.build, hc]

/-- Calling an already-built layer runs the forward pass and leaves the
layer unchanged. -/
lemma callLayer_of_built (c : Conv2D) (x : Tens) (h : c.built = true) :
    c.callLayer x = (c.forward x, c) := by
  unfold Conv2D.callLayer
  rw [build_of_built c x.c h]

/-- With `training = false` the state `normalize_weights` returns is the
input state: the `u` assignment is skipped. -/
lemma normalize_weights_false_state (s : SpectralNormalization) :
    (normalize_weights s false).2 = s := by
  unfold normalize_weights
  cases hp : snPower s <;> simp [hp]

/-- The `init` flag is set after first-pass initialization. -/
lemma snFirstInit_init (s : SpectralNormalization) (x : Tens) :
    (snFirstInit s x).init = true := rfl

/-- The wrapped layer is built after first-pass initialization. -/
lemma snFirstInit_built (s : SpectralNormalization) (x : Tens) :
    (snFirstInit s x).layer.built = true := build_built s.layer x.c

/-- `call` on an initialized wrapper skips the first-pass branch. -/
lemma sn_call_of_init (s : SpectralNormalization) (x : Tens) (tr : Bool)
    (hi : s.init = true) : s.call x tr = snCallAfterInit s x tr := by
  unfold SpectralNormalization.call
  rw [if_pos hi]

/-- `call` on an uninitialized wrapper first runs the initialization. -/
lemma sn_call_of_uninit (s : SpectralNormalization) (x : Tens) (tr : Bool)
    (hi : s.init = false) :
    s.call x tr = snCallAfterInit (snFirstInit s x) x tr := by
  unfold SpectralNormalization.call
  rw [if_neg (by simp [hi])]

/-- Inference pass on an initialized wrapper with a built layer: the output
is the forward pass under the freshly normalized kernel, and the only state
change is that kernel assignment. -/
lemma snCallAfterInit_false_of_built (s1 : SpectralNormalization) (x : Tens)
    (hb : s1.layer.built = true) :
    snCallAfterInit s1 x false =
      (Conv2D.forward
        { s1.layer with kernel := some (normalize_weights s1 false).1 } x,
       { s1 with layer :=
          { s1.layer with kernel := some (normalize_weights s1 false).1 } }) := by
  unfold snCallAfterInit
  rw [normalize_weights_false_state]
  rw [callLayer_of_built
    { s1.layer with kernel := some (normalize_weights s1 false).1 } x hb]

/-- Assigning a new kernel to the wrapped layer does not change the
normalized weights `normalize_weights` computes: they are read from
`kernel_orig`, the persisted `u` and the layer configuration only. -/
lemma normalize_weights_fst_set_kernel (s1 : SpectralNormalization)
    (k : Option (ℕ → ℕ → ℕ → ℕ → ℝ)) (tr : Bool) :
    (normalize_weights { s1 with layer := { s1.layer with kernel := k } } tr).1
      = (normalize_weights s1 tr).1 := by
  have hsp : snPower { s1 with layer := { s1.layer with kernel := k } } =
      snPower s1 := rfl
  cases hp : snPower s1
  · simp [normalize_weights, hsp, hp]
  · simp [normalize_weights, hsp, hp]

/-- Inference `call` on a ready (initialized and built) instance, in closed
form. -/
lemma sn_call_false_ready (s1 : SpectralNormalization) (x : Tens)
    (hi : s1.init = true) (hb : s1.layer.built = true) :
    s1.call x false =
      (Conv2D.forward
        { s1.layer with kernel := some (normalize_weights s1 false).1 } x,
       { s1 with layer :=
          { s1.layer with kernel := some (normalize_weights s1 false).1 } }) := by
  rw [sn_call_of_init s1 x false hi, snCallAfterInit_false_of_built s1 x hb]

/-- Repeated inference calls on a ready instance return the same output and
the same state. -/
lemma sn_call_false_idem_of_ready (s1 : SpectralNormalization) (x : Tens)
    (hi : s1.init = true) (hb : s1.layer.built = true) :
    ((s1.call x false).2.call x false).1 = (s1.call x false).1 ∧
    ((s1.call x false).2.call x false).2 = (s1.call x false).2 := by
  rw [sn_call_false_ready s1 x hi hb]
  constructor
  · show (SpectralNormalization.call
        { s1 with layer :=
          { s1.layer with kernel := some (normalize_weights s1 false).1 } }
        x false).1 =
      Conv2D.forward
        { s1.layer with kernel := some (normalize_weights s1 false).1 } x
    rw [sn_call_false_ready
      { s1 with layer :=
        { s1.layer with kernel := some (normalize_weights s1 false).1 } }
      x hi hb]
    rw [normalize_weights_fst_set_kernel s1
      (some (normalize_weights s1 false).1) false]
  · show (SpectralNormalization.call
        { s1 with layer :=
          { s1.layer with kernel := some (normalize_weights s1 false).1 } }
        x false).2 =
      { s1 with layer :=
        { s1.layer with kernel := some (normalize_weights s1 false).1 } }
    rw [sn_call_false_ready
      { s1 with layer :=
        { s1.layer with kernel := some (normalize_weights s1 false).1 } }
      x hi hb]
    rw [normalize_weights_fst_set_kernel s1
      (some (normalize_weights s1 false).1) false]

/-- C4: repeated `SpectralNormalization.call` with training = false on the
same input produces identical output, and the state reached after the first
inference call is a fixed point — no hidden state mutation during inference
affects later results.  (The hypotheses say the instance is reachable: an
instance marked initialized has a built layer, and `n_power_iterations` is
at least 1 so the power-iteration loop body runs.) -/
theorem sn_call_inference_idempotent (s : SpectralNormalization) (x : Tens)
    (hready : s.init = true → s.layer.built = true)
    (_hn : 1 ≤ s.n_power_iterations) :
    ((s.call x false).2.call x false).1 = (s.call x false).1 ∧
    ((s.call x false).2.call x false).2 = (s.call x false).2 := by
  cases hi : s.init
  · rw [sn_call_of_uninit s x false hi,
      ← sn_call_of_init (snFirstInit s x) x false (snFirstInit_init s x)]
    exact sn_call_false_idem_of_ready (snFirstInit s x) x
      (snFirstInit_init s x) (snFirstInit_built s x)
  · exact sn_call_false_idem_of_ready s x hi (hready hi)

/-- Witness for C4 at a concrete fresh instance and input. -/
theorem sn_call_inference_idempotent_witness :
    ((snC4.call xC4 false).2.call xC4 false).1 = (snC4.call xC4 false).1 ∧
    ((snC4.call xC4 false).2.call xC4 false).2 = (snC4.call xC4 false).2 :=
  sn_call_inference_idempotent snC4 xC4 (by decide) (by decide)

/-- C9: the returned value of `ResidualBlock.call` is always the pipeline
output plus an identity path, and that identity path is the input unchanged
when the pipeline output's shape equals the input's shape (exact integer
tuple equality), and otherwise the input down-sampled by 2×2 average
pooling (skipped for the last block) and passed through the 1×1
identity-adjustment convolution. -/
theorem residual_block_identity_adjust_iff (m : ResidualBlock) (x : Tens)
    (training : Bool) :
    ∃ idp : Tens,
      (m.call x training).1 = Tens.add idp (m.pipeline x training).1 ∧
      (shapeOf (m.pipeline x training).1 = shapeOf x → idp = x) ∧
      (shapeOf (m.pipeline x training).1 ≠ shapeOf x →
        idp = (m.process_identity.call
          (if m.last_block then x else avgPool2 x) training).1) := by
  simp only [ResidualBlock.call]
  by_cases hsh : shapeOf (m.pipeline x training).1 ≠ shapeOf x
  · rw [if_pos hsh]
    exact ⟨_, rfl, fun he => absurd he hsh, fun _ => rfl⟩
  · rw [if_neg hsh]
    exact ⟨x, rfl, fun _ => rfl, fun hne => absurd hne hsh⟩

/-- Witness for C9 at a concrete block and input. -/
theorem residual_block_identity_adjust_iff_witness :
    ∃ idp : Tens,
      (rbC9.call xC9 false).1 = Tens.add idp (rbC9.pipeline xC9 false).1 ∧
      (shapeOf (rbC9.pipeline xC9 false).1 = shapeOf xC9 → idp = xC9) ∧
      (shapeOf (rbC9.pipeline xC9 false).1 ≠ shapeOf xC9 →
        idp = (rbC9.process_identity.call
          (if rbC9.last_block then xC9 else avgPool2 xC9) false).1) :=
  residual_block_identity_adjust_iff rbC9 xC9 false

/-- Two tensors with equal shape fields and equal value functions are
equal. -/
lemma Tens.ext' (a b : Tens) (hn : a.n = b.n) (hh : a.h = b.h)
    (hw : a.w = b.w) (hc : a.c = b.c) (hv : a.val = b.val) : a = b := by
  cases a; cases b
  cases hn; cases hh; cases hw; cases hc; cases hv
  rfl

/-- C10: `InstanceNormalization.call` computes exactly the spec's
per-sample, per-channel normalization `(x - mean) / (std + eps)` over the
two spatial axes with `eps = 1e-12`, applying the learned per-channel
`gamma` scale and `beta` shift when affine; the constructor initializes
`gamma` to ones and `beta` to zeros (and creates neither when not
affine). -/
theorem instance_normalization_matches_spec (m : InstanceNormalization)
    (x : Tens) (f0 : ℕ) (he : m.eps = epsilon) :
    m.call x =
      instance_norm_spec m.affine (m.gamma.getD (fun _ => 1))
        (m.beta.getD (fun _ => 0)) x ∧
    (mkInstanceNormalization f0 true).gamma = some (fun _ => 1) ∧
    (mkInstanceNormalization f0 true).beta = some (fun _ => 0) ∧
    (mkInstanceNormalization f0 true).eps = epsilon ∧
    (mkInstanceNormalization f0 false).gamma = none ∧
    (mkInstanceNormalization f0 false).beta = none := by
  refine ⟨?_, rfl, rfl, rfl, rfl, rfl⟩
  obtain ⟨aff, me, mf, mg, mb⟩ := m
  change me = epsilon at he
  subst he
  cases aff
  · rfl
  · refine Tens.ext' _ _ rfl rfl rfl rfl ?_
    funext bi i j cc
    show instNormCore x epsilon bi i j cc * (mg.getD (fun _ => 1)) cc +
        (mb.getD (fun _ => 0)) cc =
      (mg.getD (fun _ => 1)) cc * instNormCore x epsilon bi i j cc +
        (mb.getD (fun _ => 0)) cc
    ring

/-- Witness for C10 at a concrete affine instance and input. -/
theorem instance_normalization_matches_spec_witness :
    inC10.call xC10 =
      instance_norm_spec inC10.affine (inC10.gamma.getD (fun _ => 1))
        (inC10.beta.getD (fun _ => 0)) xC10 ∧
    (mkInstanceNormalization 3 true).gamma = some (fun _ => 1) ∧
    (mkInstanceNormalization 3 true).beta = some (fun _ => 0) ∧
    (mkInstanceNormalization 3 true).eps = epsilon ∧
    (mkInstanceNormalization 3 false).gamma = none ∧
    (mkInstanceNormalization 3 false).beta = none :=
  instance_normalization_matches_spec inC10 xC10 3 rfl

end


